import Mathlib

/-!
Verification of the expense-tracker backend core against its source.

The Python source is shallowly embedded: SQLAlchemy tables become lists of
records, Redis becomes an association list of (key, value, remaining-TTL)
entries, and each service/resource function becomes a pure Lean function on
that state, returning `Except` where the source raises `ValidationError`.
UUID primary keys are modelled as `Nat`; the bcrypt hash is modelled as an
injective (identity) function, so `check_password` compares the stored hash
with the hash of the candidate exactly as `bcrypt.check_password_hash` does.
-/

/-- Decidable equality for `Except`, so that concrete runs of the embedded
fallible operations can be checked by `decide`. -/
instance exceptDecEq {ε α : Type} [DecidableEq ε] [DecidableEq α] :
    DecidableEq (Except ε α)
  | .error e1, .error e2 =>
    if h : e1 = e2 then .isTrue (h ▸ rfl)
    else .isFalse (fun hc => h (Except.error.inj hc))
  | .error _, .ok _ => .isFalse (fun hc => Except.noConfusion hc)
  | .ok _, .error _ => .isFalse (fun hc => Except.noConfusion hc)
  | .ok a1, .ok a2 =>
    if h : a1 = a2 then .isTrue (h ▸ rfl)
    else .isFalse (fun hc => h (Except.ok.inj hc))

/-! ## Category-name normalization (app/utils/validators.py, normalize_category_name) -/

/-- Python `\s` for the ASCII range: the whitespace class used by
`str.strip`, `str.split` and the `re` character classes in the source. -/
def isPySpace (c : Char) : Bool :=
  c = ' ' || c = '\t' || c = '\n' || c = '\x0d' || c = '\x0b' || c = '\x0c'

/-- The separator class `[\s\-_]` of the first `re.sub` in
`normalize_category_name`. -/
def isSepChar (c : Char) : Bool :=
  isPySpace c || c = '-' || c = '_'

/-- Python `\w` for the ASCII range: alphanumeric or underscore. -/
def isWordChar (c : Char) : Bool :=
  c.isAlphanum || c = '_'

/-- `str.lower` (ASCII). -/
def pyLower (s : List Char) : List Char := s.map Char.toLower

/-- `str.strip`: drop leading and trailing whitespace. -/
def pyStrip (s : List Char) : List Char :=
  ((s.dropWhile isPySpace).reverse.dropWhile isPySpace).reverse

/-- Worker for `re.sub(r"[\s\-_]+", " ", s)`: the flag records whether the
previous character was part of a separator run already replaced. -/
def collapseSepsAux : Bool → List Char → List Char
  | _, [] => []
  | prevSep, c :: rest =>
    if isSepChar c then
      if prevSep then collapseSepsAux true rest
      else ' ' :: collapseSepsAux true rest
    else c :: collapseSepsAux false rest

/-- `re.sub(r"[\s\-_]+", " ", s)`: each maximal run of whitespace, dashes and
underscores becomes a single space. -/
def collapseSeps (s : List Char) : List Char := collapseSepsAux false s

/-- `re.sub(r"[^\w\s]", "", s)`: drop characters that are neither word
characters nor whitespace. -/
def removeNonWord (s : List Char) : List Char :=
  s.filter (fun c => isWordChar c || isPySpace c)

/-- Worker for `str.split()` (no separator argument): split on whitespace
runs, dropping empty fields; `cur` is the current word reversed. -/
def pySplitAux : List Char → List Char → List (List Char)
  | [], cur => if cur.isEmpty then [] else [cur.reverse]
  | c :: rest, cur =>
    if isPySpace c then
      if cur.isEmpty then pySplitAux rest []
      else cur.reverse :: pySplitAux rest []
    else pySplitAux rest (c :: cur)

/-- `str.split()` with no arguments. -/
def pySplit (s : List Char) : List (List Char) := pySplitAux s []

/-- `str.capitalize`: first character uppercased, the rest lowercased. -/
def pyCapitalize : List Char → List Char
  | [] => []
  | c :: rest => c.toUpper :: rest.map Char.toLower

/-- `" ".join(words)`. -/
def joinSpace (ws : List (List Char)) : List Char :=
  (ws.intersperse [' ']).flatten

/-- `normalize_category_name` from app/utils/validators.py: lowercase and
strip, collapse separator runs to one space, remove remaining
non-alphanumerics, then capitalize the first word and rejoin. -/
def normalize_category_name (name : String) : String :=
  if name = "" then ""
  else
    let normalized := pyStrip (pyLower name.data)
    let normalized := collapseSeps normalized
    let normalized := removeNonWord normalized
    let words := pySplit normalized
    match words with
    | [] => String.mk normalized
    | w :: ws => String.mk (pyCapitalize w ++ ' ' :: joinSpace ws)

/-! ## Data model (app/models) -/

/-- A row of the `users` table (app/models/user.py). UUID ids are modelled
as `Nat`; the stored `password` column holds the bcrypt hash, modelled via
an injective identity hash. -/
structure UserRec where
  id : Nat
  username : String
  email : String
  password : String
  name : String
  is_staff : Bool
  is_verified : Bool
  is_deleted : Bool
deriving DecidableEq

/-- A row of the `categories` table (app/models/category.py). -/
structure CategoryRec where
  id : Nat
  user_id : Nat
  name : String
  is_predefined : Bool
  is_deleted : Bool
deriving DecidableEq

/-- A row of the `transactions` table (app/models/transaction.py); only the
columns the verified operations touch are kept. -/
structure TransactionRec where
  id : Nat
  user_id : Nat
  category_id : Nat
  is_deleted : Bool
deriving DecidableEq

/-- A row of the `active_access_tokens` table (app/models/auth.py). The
`access_token` column carries a database-level unique constraint. -/
structure ActiveAccessToken where
  access_token : String
  user_id : Nat
deriving DecidableEq

/-- `bcrypt.generate_password_hash`, modelled as an injective (identity)
hash. -/
def bcrypt_hash (password : String) : String := password

/-- `User.set_password` (app/models/user.py): hash and overwrite the stored
password. -/
def set_password (user : UserRec) (password : String) : UserRec :=
  { user with password := bcrypt_hash password }

/-- `User.check_password` (app/models/user.py): compare the stored hash
against the hash of the candidate. -/
def check_password (user : UserRec) (password : String) : Bool :=
  user.password == bcrypt_hash password

/-! ## Login (app/services/auth.py, is_email / authenticate_user) -/

/-- The local-part character class `[a-zA-Z0-9._%+-]` of the email regex in
`is_email`. -/
def isEmailLocalChar (c : Char) : Bool :=
  c.isAlphanum || c = '.' || c = '_' || c = '%' || c = '+' || c = '-'

/-- The domain character class `[a-zA-Z0-9.-]` of the email regex. -/
def isEmailDomainChar (c : Char) : Bool :=
  c.isAlphanum || c = '.' || c = '-'

/-- The domain part of the regex, `[a-zA-Z0-9.-]+\.[a-zA-Z]{2,}$`, with
backtracking semantics: some split into a nonempty domain-class prefix, a
literal dot, and a final run of at least two letters. -/
def matchesEmailDomain (r : List Char) : Bool :=
  (List.range r.length).any (fun i =>
    let b := r.take i
    let rest := r.drop i
    !b.isEmpty && b.all isEmailDomainChar &&
      rest.head? = some '.' &&
      decide (2 ≤ rest.tail.length) && rest.tail.all Char.isAlpha)

/-- `is_email` from app/services/auth.py: whether the full string matches
`^[a-zA-Z0-9._%+-]+@[a-zA-Z0-9.-]+\.[a-zA-Z]{2,}$`. -/
def is_email (s : String) : Bool :=
  let cs := s.data
  (List.range cs.length).any (fun i =>
    cs.take i ≠ [] && (cs.take i).all isEmailLocalChar &&
      cs.get? i = some '@' && matchesEmailDomain (cs.drop (i + 1)))

/-- The user lookup performed by `authenticate_user`: classify the
identifier by `is_email`, then take the first non-deleted user matching on
that field. -/
def lookup_login_user (users : List UserRec) (ident : String) : Option UserRec :=
  if is_email ident then
    users.find? (fun u => u.email == ident && u.is_deleted == false)
  else
    users.find? (fun u => u.username == ident && u.is_deleted == false)

/-- `authenticate_user` from app/services/auth.py; the `Except` error value
is the exact `ValidationError` message raised. -/
def authenticate_user (users : List UserRec) (ident password : String) :
    Except String UserRec :=
  match lookup_login_user users ident with
  | none => .error "Invalid username/email or password"
  | some user =>
    if !user.is_verified then
      .error "Please verify your email before logging in"
    else if !(check_password user password) then
      .error "Invalid username/email or password"
    else
      .ok user

/-! ## Creation-time user_id validation (app/schemas/category.py and
app/schemas/transaction.py) -/

/-- `CategorySchema.validate_user_id`: the target user must exist and be
non-deleted; a non-staff actor may only name itself; a staff actor is
rejected only when the target is a staff user other than itself. -/
def category_validate_user_id (users : List UserRec) (current_user : UserRec)
    (value : Nat) : Except String Nat :=
  match users.find? (fun u => u.id == value) with
  | none => .error "User not found"
  | some user =>
    if user.is_deleted then .error "User not found"
    else if !current_user.is_staff then
      if value != current_user.id then
        .error "You can create categories for yourself only"
      else .ok value
    else if user.is_staff && value != current_user.id then
      .error "You cannot create a category on behalf of other users"
    else .ok value

/-- `TransactionSchema.validate_user_id`: the target user must exist and be
non-deleted; a non-staff actor may only name itself; a staff actor is
rejected for every staff target, itself included. -/
def transaction_validate_user_id (users : List UserRec) (current_user : UserRec)
    (value : Nat) : Except String Nat :=
  match users.find? (fun u => u.id == value) with
  | none => .error "User not found"
  | some user =>
    if user.is_deleted then .error "User not found"
    else if !current_user.is_staff then
      if value != current_user.id then
        .error "You can create transactions for yourself only"
      else .ok value
    else if user.is_staff then
      .error "Staff cannot create transactions for staff users"
    else .ok value

/-- A concrete staff user for witnesses and counterexamples. -/
def demoStaff : UserRec :=
  { id := 1, username := "staffer", email := "staff@example.com",
    password := "pw0", name := "Staff", is_staff := true,
    is_verified := true, is_deleted := false }

/-- A concrete regular user for witnesses and counterexamples. -/
def demoAlice : UserRec :=
  { id := 2, username := "alice", email := "alice@example.com",
    password := "pw1", name := "Alice", is_staff := false,
    is_verified := true, is_deleted := false }

/-! ## Redis and the rate-limited link/token issuance
(app/services/auth.py, app/services/user.py, app/utils/tokens.py) -/

/-- The Redis cache: entries of (key, value, remaining TTL in seconds).
`redis_client.ttl` is read only after `redis_client.exists`, so a missing
key's TTL is never consulted. -/
abbrev Redis := List (String × String × Nat)

/-- `redis_client.exists`. -/
def redis_exists (r : Redis) (k : String) : Bool :=
  r.any (fun e => e.1 == k)

/-- `redis_client.ttl` for a present key: its remaining TTL in seconds. -/
def redis_ttl (r : Redis) (k : String) : Nat :=
  match r.find? (fun e => e.1 == k) with
  | some e => e.2.2
  | none => 0

/-- `redis_client.setex`: (re)create the key with the given TTL. -/
def redis_setex (r : Redis) (k : String) (ttl : Nat) (v : String) : Redis :=
  (k, v, ttl) :: r.filter (fun e => !(e.1 == k))

/-- app/utils/constants.py. -/
def ACCCOUNT_VERIFICATION_LINK_SEND_RATE_LIMIT : Nat := 600

/-- app/utils/constants.py. -/
def ACCCOUNT_VERIFICATION_LINK_VALIDITY : Nat := 3600

/-- app/utils/constants.py. -/
def PASSWORD_RESET_LINK_SEND_RATE_LIMIT : Nat := 600

/-- app/utils/constants.py. -/
def PASSWORD_RESET_LINK_VALIDITY : Nat := 900

/-- app/utils/constants.py. -/
def EMAIL_CHANGE_TOKEN_VALIDITY : Nat := 12 * 3600

/-- app/utils/constants.py. -/
def EMAIL_CHANGE_TOKEN_RESEND : Nat := 600

/-- `send_account_verification_link` (app/services/auth.py), restricted to
its cache effects: on a present rate-limit key it raises `ValidationError`
reporting `int(time_remaining / 60) + 1` minutes (carried as the error
value); otherwise it stores the verification token and the rate-limit key.
The freshly generated UUID token is passed in as `token`. -/
def send_account_verification_link (r : Redis) (user_id : Nat) (token : String) :
    Except Nat Redis :=
  let rate_limit_key := "verify_rate_limit:" ++ toString user_id
  if redis_exists r rate_limit_key then
    .error (redis_ttl r rate_limit_key / 60 + 1)
  else
    let r1 := redis_setex r ("verification_token:" ++ token)
      ACCCOUNT_VERIFICATION_LINK_VALIDITY (toString user_id)
    .ok (redis_setex r1 rate_limit_key ACCCOUNT_VERIFICATION_LINK_SEND_RATE_LIMIT "1")

/-- `TokenHandler.store_reset_token` (app/utils/tokens.py). -/
def store_reset_token (r : Redis) (user_id : Nat) (token : String) : Redis :=
  let r1 := redis_setex r ("password_reset:" ++ token)
    PASSWORD_RESET_LINK_VALIDITY (toString user_id)
  let rate_limit_key := "password_reset_link_rate_limit:" ++ toString user_id
  if redis_exists r1 rate_limit_key then r1
  else redis_setex r1 rate_limit_key PASSWORD_RESET_LINK_SEND_RATE_LIMIT "1"

/-- `send_password_reset_link` (app/services/auth.py), after the user has
been found by email: on a present rate-limit key it raises
`ValidationError` reporting `int(time_remaining / 60)` minutes (carried as
the error value); otherwise it stores the reset token. -/
def send_password_reset_link (r : Redis) (user_id : Nat) (token : String) :
    Except Nat Redis :=
  let rate_limit_key := "password_reset_link_rate_limit:" ++ toString user_id
  if redis_exists r rate_limit_key then
    .error (redis_ttl r rate_limit_key / 60)
  else
    .ok (store_reset_token r user_id token)

/-- `generate_staff_email_change_token` (app/services/user.py): on a present
per-user reissue key it raises `ValidationError` reporting
`int(time_remaining / 60)` minutes (carried as the error value); otherwise
it stores the reissue key and the token entry. -/
def generate_staff_email_change_token (r : Redis) (user_id : Nat)
    (new_email token : String) : Except Nat Redis :=
  let redis_ttl_key := "staff_email_change_ttl:" ++ toString user_id
  if redis_exists r redis_ttl_key then
    .error (redis_ttl r redis_ttl_key / 60)
  else
    let r1 := redis_setex r redis_ttl_key EMAIL_CHANGE_TOKEN_RESEND "1"
    .ok (redis_setex r1 ("staff_email_change:" ++ token)
      EMAIL_CHANGE_TOKEN_VALIDITY (toString user_id ++ ":" ++ new_email))

/-! ## Account verification by token (app/services/auth.py, verify_user_by_token) -/

/-- The verification-token cache: Redis keys of the form
`verification_token:<token>` mapped to the stored user id (stored as
`str(user.id)` in the source and parsed back with `uuid.UUID`). -/
structure VerifyState where
  users : List UserRec
  cache : List (String × Nat)
deriving DecidableEq

/-- `redis_client.get` on the verification-token cache. -/
def redis_get_uid (cache : List (String × Nat)) (key : String) : Option Nat :=
  (cache.find? (fun e => e.1 == key)).map (fun e => e.2)

/-- `redis_client.delete` on the verification-token cache. -/
def redis_delete_uid (cache : List (String × Nat)) (key : String) :
    List (String × Nat) :=
  cache.filter (fun e => !(e.1 == key))

/-- `verify_user_by_token` (app/services/auth.py): absent token fails;
missing user fails without touching the cache; an already-verified user
returns `false` ("already verified") and deletes the token; otherwise the
user is marked verified and the token deleted, returning `true`. -/
def verify_user_by_token (st : VerifyState) (token : String) :
    Except String (Bool × VerifyState) :=
  let redis_key := "verification_token:" ++ token
  match redis_get_uid st.cache redis_key with
  | none => .error "Invalid or expired verification token"
  | some uid =>
    match st.users.find? (fun u => u.id == uid) with
    | none => .error "User not found"
    | some user =>
      if user.is_verified then
        .ok (false, { st with cache := redis_delete_uid st.cache redis_key })
      else
        .ok (true,
          { users := st.users.map
              (fun u => if u.id == uid then { u with is_verified := true } else u),
            cache := redis_delete_uid st.cache redis_key })

/-- The state reached by one `verify_user_by_token` call: the updated state
on success, the unchanged state when a `ValidationError` is raised. -/
def verify_state_after (st : VerifyState) (token : String) : VerifyState :=
  match verify_user_by_token st token with
  | .ok (_, st2) => st2
  | .error _ => st

/-! ## Cascade cleanup after user soft-delete (app/tasks/user.py) -/

/-- `TokenHandler.invalidate_user_access_tokens` (app/utils/tokens.py):
delete every ledger row of the user. -/
def invalidate_user_access_tokens (tokens : List ActiveAccessToken)
    (user_id : Nat) : List ActiveAccessToken :=
  tokens.filter (fun t => !(t.user_id == user_id))

/-- The per-row effect of
`Category.query.filter_by(user_id=..., is_deleted=False).update({"is_deleted": True})`. -/
def soft_delete_category_row (user_id : Nat) (c : CategoryRec) : CategoryRec :=
  if c.user_id == user_id && c.is_deleted == false then
    { c with is_deleted := true }
  else c

/-- The per-row effect of
`Transaction.query.filter_by(user_id=..., is_deleted=False).update({"is_deleted": True})`. -/
def soft_delete_transaction_row (user_id : Nat) (t : TransactionRec) : TransactionRec :=
  if t.user_id == user_id && t.is_deleted == false then
    { t with is_deleted := true }
  else t

/-- The durable state the cascade job touches. -/
structure CascadeState where
  tokens : List ActiveAccessToken
  categories : List CategoryRec
  transactions : List TransactionRec
deriving DecidableEq

/-- `soft_delete_user_related_objects` (app/tasks/user.py): revoke all the
user's ledger tokens and soft-delete the user's non-deleted categories and
transactions. -/
def soft_delete_user_related_objects (st : CascadeState) (user_id : Nat) :
    CascadeState :=
  { tokens := invalidate_user_access_tokens st.tokens user_id,
    categories := st.categories.map (soft_delete_category_row user_id),
    transactions := st.transactions.map (soft_delete_transaction_row user_id) }

/-! ## Category deletion (app/resources/category.py, CategoryDetailResource.delete) -/

/-- `CategoryDetailResource.delete`: with at least one non-deleted
transaction referencing the category, return the 400 error and leave the
table unchanged; otherwise soft-delete the row and return 200. The result
is ((message, HTTP status), categories table afterwards). -/
def category_delete (categories : List CategoryRec)
    (transactions : List TransactionRec) (category : CategoryRec) :
    (String × Nat) × List CategoryRec :=
  let transactions_exist :=
    (transactions.find?
      (fun t => t.category_id == category.id && t.is_deleted == false)).isSome
  if transactions_exist then
    (("This category cannot be deleted as there are associated transactions.", 400),
      categories)
  else
    (("Category deleted successfully", 200),
      categories.map (fun c =>
        if c.id == category.id then { c with is_deleted := true } else c))

/-! ## Authenticated password update (app/resources/user.py,
PasswordUpdateResource.post; app/schemas/user.py, PasswordUpdateSchema) -/

/-- The durable state of the password-update flow: the users table and the
access-token ledger. -/
structure AppState where
  users : List UserRec
  tokens : List ActiveAccessToken
deriving DecidableEq

/-- The special-character class of `validate_password`
(app/utils/validators.py). -/
def passwordSpecialChars : List Char :=
  ['!', '@', '#', '$', '%', '^', '&', '*', '(', ')', ',', '.', '?', '"',
   ':', '\x7b', '\x7d', '|', '<', '>']

/-- `validate_password` (app/utils/validators.py) as a pass/fail predicate:
no surrounding whitespace, at least 8 characters, at least one letter, one
digit and one special character. -/
def validate_password (value : String) : Bool :=
  value == String.mk (pyStrip value.data) &&
  decide (8 ≤ value.data.length) &&
  value.data.any Char.isAlpha &&
  value.data.any Char.isDigit &&
  value.data.any (fun c => passwordSpecialChars.contains c)

/-- `authenticated_user` resolution (app/utils/permissions.py): look the
presented bearer token up in the ledger and return the associated user;
`none` is the Unauthenticated (401) outcome. -/
def resolve (st : AppState) (token : String) : Option UserRec :=
  match st.tokens.find? (fun t => t.access_token == token) with
  | none => none
  | some entry => st.users.find? (fun u => u.id == entry.user_id)

/-- `PasswordUpdateResource.post` (app/resources/user.py) after schema
validation is folded in: the current password must check against the target
user, the new password must satisfy `validate_password`, and the
confirmation must match; then the target's password is set and every ledger
row of the target except the presented bearer token is deleted. -/
def password_update_post (st : AppState) (target : UserRec)
    (current_password new_password confirm_password : String)
    (current_token : Option String) : Except String AppState :=
  if !(check_password target current_password) then
    .error "Current password is incorrect"
  else if !(validate_password new_password) then
    .error "Invalid new password"
  else if new_password != confirm_password then
    .error "Passwords must match"
  else
    let users2 := st.users.map
      (fun u => if u.id == target.id then set_password u new_password else u)
    let tokens2 := match current_token with
      | some tok => st.tokens.filter
          (fun t => !(t.user_id == target.id && t.access_token != tok))
      | none => st.tokens
    .ok { users := users2, tokens := tokens2 }

/-- Claim C8: the category-name normalization maps " Food_AND-drink  "
to exactly "Food and drink". -/
theorem normalize_food_and_drink :
    normalize_category_name " Food_AND-drink  " = "Food and drink" := by
  decide

/-- Claim C10: whenever normalization produces exactly one word, the result
is that word capitalized followed by a trailing space character, because the
first word is always concatenated with a space plus the join of the
remaining words. -/
theorem normalize_single_word_trailing_space (s : String) (w : List Char)
    (h : pySplit (removeNonWord (collapseSeps (pyStrip (pyLower s.data)))) = [w]) :
    normalize_category_name s = String.mk (pyCapitalize w ++ [' ']) := by
  unfold normalize_category_name
  by_cases hs : s = ""
  · subst hs
    simp [pyLower, pyStrip, collapseSeps, collapseSepsAux, removeNonWord,
      pySplit, pySplitAux] at h
  · simp only [hs, if_false]
    rw [h]
    simp [joinSpace]

/-- Witness for C10 at the concrete input "food": the single-word
normalization result is "Food " (with trailing space), not "Food", and
normalizing the trimmed form "Food" again yields "Food " (so normalization
is not idempotent on the trimmed single-word output). -/
theorem normalize_single_word_trailing_space_witness :
    normalize_category_name "food" = String.mk (pyCapitalize "food".data ++ [' ']) ∧
    normalize_category_name "food" = "Food " ∧
    normalize_category_name "Food" ≠ "Food" := by
  refine ⟨normalize_single_word_trailing_space "food" "food".data (by decide), by decide, by decide⟩

/-- Claim C4: a login attempt against an existing, verified, non-deleted
user with a wrong password and a login attempt whose identifier matches no
non-deleted user raise the same "Invalid username/email or password"
message, so the two failures are byte-identical to the caller. -/
theorem login_enumeration_resistant (users : List UserRec)
    (ident1 pw1 ident2 pw2 : String) (u : UserRec)
    (h1 : lookup_login_user users ident1 = some u)
    (hv : u.is_verified = true)
    (hw : check_password u pw1 = false)
    (h2 : lookup_login_user users ident2 = none) :
    authenticate_user users ident1 pw1 = .error "Invalid username/email or password" ∧
    authenticate_user users ident2 pw2 = .error "Invalid username/email or password" ∧
    authenticate_user users ident1 pw1 = authenticate_user users ident2 pw2 := by
  unfold authenticate_user
  rw [h1, h2]
  simp [hv, hw]

/-- Witness for C4: with Alice registered and verified, a wrong-password
login as "alice" and a login with unknown identifier "nobody99" produce the
identical error payload. -/
theorem login_enumeration_resistant_witness :
    authenticate_user [demoStaff, demoAlice] "alice" "wrongpw"
      = .error "Invalid username/email or password" ∧
    authenticate_user [demoStaff, demoAlice] "nobody99" "whatever"
      = .error "Invalid username/email or password" ∧
    authenticate_user [demoStaff, demoAlice] "alice" "wrongpw"
      = authenticate_user [demoStaff, demoAlice] "nobody99" "whatever" :=
  login_enumeration_resistant [demoStaff, demoAlice] "alice" "wrongpw"
    "nobody99" "whatever" demoAlice (by decide) (by decide) (by decide) (by decide)

/-- Claim C9: the login workflow tests `is_verified` before the password,
so an existing non-deleted unverified user yields the distinct
"Please verify your email before logging in" message for every supplied
password, revealing that an unverified account exists. -/
theorem login_unverified_distinct_error (users : List UserRec)
    (ident pw : String) (u : UserRec)
    (h1 : lookup_login_user users ident = some u)
    (hv : u.is_verified = false) :
    authenticate_user users ident pw
      = .error "Please verify your email before logging in" ∧
    ("Please verify your email before logging in" : String)
      ≠ "Invalid username/email or password" := by
  unfold authenticate_user
  rw [h1]
  simp [hv]

/-- Witness for C9: an unverified user "bob" gets the verification error
even when supplying his correct password. -/
theorem login_unverified_distinct_error_witness :
    authenticate_user
      [{ id := 3, username := "bobby", email := "bob@example.com",
         password := "pw3", name := "Bob", is_staff := false,
         is_verified := false, is_deleted := false }] "bobby" "pw3"
      = .error "Please verify your email before logging in" ∧
    ("Please verify your email before logging in" : String)
      ≠ "Invalid username/email or password" :=
  login_unverified_distinct_error _ "bobby" "pw3"
    { id := 3, username := "bobby", email := "bob@example.com",
      password := "pw3", name := "Bob", is_staff := false,
      is_verified := false, is_deleted := false } (by decide) (by decide)

/-- Counterexample to C2 as stated: the category schema accepts a staff
actor creating a category for itself (`user_id` equal to its own id), while
the claim says staff "cannot create categories for itself". -/
theorem staff_can_create_category_for_self :
    category_validate_user_id [demoStaff, demoAlice] demoStaff 1 = .ok 1 := by
  decide

/-- Claim C2 (amended): a non-staff actor may only create categories or
transactions with `user_id` equal to its own id; a staff actor may create
transactions only for non-staff users (every staff target, itself included,
is rejected), but may create categories for itself or for any non-staff
user — only *other* staff targets are rejected. -/
theorem create_user_id_validation_rules (users : List UserRec)
    (cu target : UserRec) (value : Nat)
    (hfind : users.find? (fun u => u.id == value) = some target)
    (hnd : target.is_deleted = false) :
    (category_validate_user_id users cu value = .ok value ↔
      (cu.is_staff = false ∧ value = cu.id) ∨
      (cu.is_staff = true ∧ (target.is_staff = false ∨ value = cu.id))) ∧
    (transaction_validate_user_id users cu value = .ok value ↔
      (cu.is_staff = false ∧ value = cu.id) ∨
      (cu.is_staff = true ∧ target.is_staff = false)) := by
  unfold category_validate_user_id transaction_validate_user_id
  rw [hfind]
  by_cases hst : cu.is_staff <;>
    by_cases htg : target.is_staff <;>
      by_cases hev : value = cu.id <;>
        simp [hnd, hst, htg, hev]

/-- Witness for C2 (amended): the staff actor may create a category and a
transaction for the regular user Alice. -/
theorem create_user_id_validation_rules_witness :
    (category_validate_user_id [demoStaff, demoAlice] demoStaff 2 = .ok 2 ↔
      (demoStaff.is_staff = false ∧ 2 = demoStaff.id) ∨
      (demoStaff.is_staff = true ∧ (demoAlice.is_staff = false ∨ 2 = demoStaff.id))) ∧
    (transaction_validate_user_id [demoStaff, demoAlice] demoStaff 2 = .ok 2 ↔
      (demoStaff.is_staff = false ∧ 2 = demoStaff.id) ∨
      (demoStaff.is_staff = true ∧ demoAlice.is_staff = false)) :=
  create_user_id_validation_rules [demoStaff, demoAlice] demoStaff demoAlice 2
    (by decide) (by decide)

/-- Helper: `find?` commutes with a `map` whose function preserves the
predicate. -/
theorem find?_map_of_pred {α : Type} (p : α → Bool) (f : α → α) (l : List α)
    (hf : ∀ a, p (f a) = p a) : (l.map f).find? p = (l.find? p).map f := by
  induction l with
  | nil => rfl
  | cons a l ih =>
    by_cases h : p a = true
    · simp [List.find?_cons, hf, h]
    · simp only [Bool.not_eq_true] at h
      simp [List.find?_cons, hf, h, ih]

/-- Counterexample to C1 as stated: with the password-reset rate-limit key
present at 30 seconds remaining, the workflow reports 0 minutes — not the
round-up value 1 — and with the verification rate-limit key present at the
full 600-second cooldown, that workflow reports 11 minutes, exceeding the
10-minute cooldown the claim bounds it by. -/
theorem rate_limit_minutes_not_rounded_up :
    send_password_reset_link [("password_reset_link_rate_limit:7", "1", 30)] 7 "tk"
      = .error 0 ∧
    (0 : Nat) ≠ (30 + 59) / 60 ∧
    send_account_verification_link [("verify_rate_limit:7", "1", 600)] 7 "tk2"
      = .error 11 ∧
    ACCCOUNT_VERIFICATION_LINK_SEND_RATE_LIMIT / 60 < 11 := by
  refine ⟨by decide, by decide, by decide, by decide⟩

/-- Claim C1 (amended): when the companion rate-limit key is present, the
verification workflow reports `floor(ttl/60) + 1` minutes — always
positive, equal to the TTL rounded up to the next whole minute exactly when
60 does not divide the TTL (one more than that round-up when it does), and
at most cooldown/60 + 1 = 11 when the TTL is within the 600-second
cooldown; the password-reset and staff email-change workflows instead
report `floor(ttl/60)`, the TTL rounded *down*, which is 0 whenever fewer
than 60 seconds remain. -/
theorem rate_limit_reported_minutes (r : Redis) (uid : Nat)
    (tok1 tok2 tok3 email : String) (tv tp ts : Nat)
    (hv : redis_exists r ("verify_rate_limit:" ++ toString uid) = true)
    (hv2 : redis_ttl r ("verify_rate_limit:" ++ toString uid) = tv)
    (hp : redis_exists r ("password_reset_link_rate_limit:" ++ toString uid) = true)
    (hp2 : redis_ttl r ("password_reset_link_rate_limit:" ++ toString uid) = tp)
    (hs : redis_exists r ("staff_email_change_ttl:" ++ toString uid) = true)
    (hs2 : redis_ttl r ("staff_email_change_ttl:" ++ toString uid) = ts) :
    send_account_verification_link r uid tok1 = .error (tv / 60 + 1) ∧
    0 < tv / 60 + 1 ∧
    (tv ≤ ACCCOUNT_VERIFICATION_LINK_SEND_RATE_LIMIT → tv / 60 + 1 ≤ 11) ∧
    (¬ (60 ∣ tv) → tv / 60 + 1 = (tv + 59) / 60) ∧
    send_password_reset_link r uid tok2 = .error (tp / 60) ∧
    (tp < 60 → tp / 60 = 0) ∧
    generate_staff_email_change_token r uid email tok3 = .error (ts / 60) ∧
    (ts < 60 → ts / 60 = 0) := by
  refine ⟨?_, ?_, ?_, ?_, ?_, ?_, ?_, ?_⟩
  · simp [send_account_verification_link, hv, hv2]
  · omega
  · intro h
    simp only [ACCCOUNT_VERIFICATION_LINK_SEND_RATE_LIMIT] at h
    omega
  · intro h
    have hm : tv % 60 ≠ 0 := by rwa [Nat.dvd_iff_mod_eq_zero] at h
    omega
  · simp [send_password_reset_link, hp, hp2]
  · intro h; omega
  · simp [generate_staff_email_change_token, hs, hs2]
  · intro h; omega

/-- Witness for C1 (amended) on a concrete cache: verification key at 125
seconds reports 3 minutes, password-reset key at 90 seconds reports 1
minute, staff email-change key at 45 seconds reports 0 minutes. -/
theorem rate_limit_reported_minutes_witness :
    send_account_verification_link
      [("verify_rate_limit:7", "1", 125),
       ("password_reset_link_rate_limit:7", "1", 90),
       ("staff_email_change_ttl:7", "1", 45)] 7 "a" = .error (125 / 60 + 1) ∧
    0 < 125 / 60 + 1 ∧
    (125 ≤ ACCCOUNT_VERIFICATION_LINK_SEND_RATE_LIMIT → 125 / 60 + 1 ≤ 11) ∧
    (¬ ((60 : Nat) ∣ 125) → 125 / 60 + 1 = (125 + 59) / 60) ∧
    send_password_reset_link
      [("verify_rate_limit:7", "1", 125),
       ("password_reset_link_rate_limit:7", "1", 90),
       ("staff_email_change_ttl:7", "1", 45)] 7 "b" = .error (90 / 60) ∧
    ((90 : Nat) < 60 → 90 / 60 = 0) ∧
    generate_staff_email_change_token
      [("verify_rate_limit:7", "1", 125),
       ("password_reset_link_rate_limit:7", "1", 90),
       ("staff_email_change_ttl:7", "1", 45)] 7 "e" "c" = .error (45 / 60) ∧
    ((45 : Nat) < 60 → 45 / 60 = 0) :=
  rate_limit_reported_minutes
    [("verify_rate_limit:7", "1", 125),
     ("password_reset_link_rate_limit:7", "1", 90),
     ("staff_email_change_ttl:7", "1", 45)] 7 "a" "b" "c" "e" 125 90 45
    (by decide) (by decide) (by decide) (by decide) (by decide) (by decide)

/-- Helper: the cascade's per-row category update is idempotent. -/
theorem soft_delete_category_row_idem (uid : Nat) (c : CategoryRec) :
    soft_delete_category_row uid (soft_delete_category_row uid c)
      = soft_delete_category_row uid c := by
  unfold soft_delete_category_row
  by_cases h1 : c.user_id == uid <;> by_cases h2 : c.is_deleted <;> simp [h1, h2]

/-- Helper: the cascade's per-row transaction update is idempotent. -/
theorem soft_delete_transaction_row_idem (uid : Nat) (t : TransactionRec) :
    soft_delete_transaction_row uid (soft_delete_transaction_row uid t)
      = soft_delete_transaction_row uid t := by
  unfold soft_delete_transaction_row
  by_cases h1 : t.user_id == uid <;> by_cases h2 : t.is_deleted <;> simp [h1, h2]

/-- Claim C7: the cascade cleanup job for a soft-deleted user is
idempotent — running it twice for the same user id produces exactly the
state (ledger tokens, categories, transactions) of running it once, so
re-running it on already-deleted rows is a no-op. -/
theorem soft_delete_user_related_objects_idempotent (st : CascadeState) (uid : Nat) :
    soft_delete_user_related_objects (soft_delete_user_related_objects st uid) uid
      = soft_delete_user_related_objects st uid := by
  simp only [soft_delete_user_related_objects, CascadeState.mk.injEq]
  refine ⟨?_, ?_, ?_⟩
  · simp [invalidate_user_access_tokens, List.filter_filter]
  · rw [List.map_map]
    exact List.map_congr_left (fun c _ => soft_delete_category_row_idem uid c)
  · rw [List.map_map]
    exact List.map_congr_left (fun t _ => soft_delete_transaction_row_idem uid t)

/-- Claim C5: deleting a category referenced by at least one non-deleted
transaction returns the 400 validation error and leaves the categories
table (hence the category's is_deleted flag) unchanged; deleting one with
no non-deleted referencing transaction returns 200 and sets its is_deleted
flag. -/
theorem category_delete_spec (categories : List CategoryRec)
    (transactions : List TransactionRec) (category : CategoryRec)
    (hmem : categories.find? (fun c => c.id == category.id) = some category) :
    ((transactions.find?
        (fun t => t.category_id == category.id && t.is_deleted == false)).isSome = true →
      (category_delete categories transactions category).1.2 = 400 ∧
      (category_delete categories transactions category).2 = categories) ∧
    ((transactions.find?
        (fun t => t.category_id == category.id && t.is_deleted == false)).isSome = false →
      (category_delete categories transactions category).1.2 = 200 ∧
      ((category_delete categories transactions category).2.find?
        (fun c => c.id == category.id)).map (fun c => c.is_deleted) = some true) := by
  constructor
  · intro h
    unfold category_delete
    rw [h]
    exact ⟨rfl, rfl⟩
  · intro h
    unfold category_delete
    rw [h]
    refine ⟨rfl, ?_⟩
    show ((categories.map
      (fun c => if c.id == category.id then { c with is_deleted := true } else c)).find?
        (fun c => c.id == category.id)).map (fun c => c.is_deleted) = some true
    rw [find?_map_of_pred (fun c => c.id == category.id)
      (fun c => if c.id == category.id then { c with is_deleted := true } else c)
      categories
      (fun a => by by_cases ha : a.id == category.id <;> simp [ha])]
    rw [hmem]
    simp

/-- Witness for C5: with category 10 referenced by the live transaction 100
the delete returns 400 and changes nothing; with only a soft-deleted
referencing transaction it returns 200 and marks the category deleted. -/
theorem category_delete_spec_witness :
    ((([⟨100, 2, 10, false⟩] : List TransactionRec).find?
        (fun t => t.category_id == (10 : Nat) && t.is_deleted == false)).isSome = true →
      (category_delete [⟨10, 2, "Food ", false, false⟩] [⟨100, 2, 10, false⟩]
        ⟨10, 2, "Food ", false, false⟩).1.2 = 400 ∧
      (category_delete [⟨10, 2, "Food ", false, false⟩] [⟨100, 2, 10, false⟩]
        ⟨10, 2, "Food ", false, false⟩).2 = [⟨10, 2, "Food ", false, false⟩]) ∧
    ((([⟨100, 2, 10, false⟩] : List TransactionRec).find?
        (fun t => t.category_id == (10 : Nat) && t.is_deleted == false)).isSome = false →
      (category_delete [⟨10, 2, "Food ", false, false⟩] [⟨100, 2, 10, false⟩]
        ⟨10, 2, "Food ", false, false⟩).1.2 = 200 ∧
      ((category_delete [⟨10, 2, "Food ", false, false⟩] [⟨100, 2, 10, false⟩]
        ⟨10, 2, "Food ", false, false⟩).2.find?
        (fun c => c.id == (10 : Nat))).map
        (fun c => c.is_deleted) = some true) :=
  category_delete_spec [⟨10, 2, "Food ", false, false⟩]
    [⟨100, 2, 10, false⟩] ⟨10, 2, "Food ", false, false⟩ (by decide)

/-- Helper: after deleting a verification-token key, looking it up yields
nothing. -/
theorem redis_get_uid_delete (cache : List (String × Nat)) (k : String) :
    redis_get_uid (redis_delete_uid cache k) k = none := by
  unfold redis_get_uid redis_delete_uid
  rw [Option.map_eq_none', List.find?_eq_none]
  intro e he
  have h2 := (List.mem_filter.mp he).2
  simp only [Bool.not_eq_true'] at h2
  simp [h2]

/-- Claim C6: verifying the same account-verification token twice is
idempotent and non-destructive — when the token is valid and its user is
already verified, the call succeeds with the "already verified" outcome
(`false`) without changing any user, the token is absent from the cache
after the call, the second call merely reports an invalid token, and the
state after two calls equals the state after one. -/
theorem verify_token_twice_idempotent (st : VerifyState) (token : String)
    (uid : Nat) (user : UserRec)
    (hc : redis_get_uid st.cache ("verification_token:" ++ token) = some uid)
    (hu : st.users.find? (fun u => u.id == uid) = some user)
    (hv : user.is_verified = true) :
    verify_user_by_token st token =
      .ok (false,
        { st with cache := redis_delete_uid st.cache ("verification_token:" ++ token) }) ∧
    redis_get_uid
      (redis_delete_uid st.cache ("verification_token:" ++ token))
      ("verification_token:" ++ token) = none ∧
    verify_user_by_token
      { st with cache := redis_delete_uid st.cache ("verification_token:" ++ token) }
      token = .error "Invalid or expired verification token" ∧
    verify_state_after (verify_state_after st token) token
      = verify_state_after st token := by
  have h1 : verify_user_by_token st token =
      .ok (false,
        { st with cache := redis_delete_uid st.cache ("verification_token:" ++ token) }) := by
    simp [verify_user_by_token, hc, hu, hv]
  have h2 : verify_user_by_token
      { st with cache := redis_delete_uid st.cache ("verification_token:" ++ token) }
      token = .error "Invalid or expired verification token" := by
    simp [verify_user_by_token, redis_get_uid_delete]
  refine ⟨h1, redis_get_uid_delete _ _, h2, ?_⟩
  simp only [verify_state_after, h1, h2]

/-- Witness for C6: a valid token for the already-verified user 5 succeeds
with the "already verified" outcome, deletes the token, and a second call
on the resulting state reports an invalid token without changing anything. -/
theorem verify_token_twice_idempotent_witness :
    verify_user_by_token
      { users := [⟨5, "verro", "v@example.com", "pw5", "V", false, true, false⟩],
        cache := [("verification_token:tk", 5)] } "tk" =
      .ok (false,
        { users := [⟨5, "verro", "v@example.com", "pw5", "V", false, true, false⟩],
          cache := redis_delete_uid [("verification_token:tk", 5)]
            ("verification_token:" ++ "tk") }) ∧
    redis_get_uid
      (redis_delete_uid [("verification_token:tk", 5)] ("verification_token:" ++ "tk"))
      ("verification_token:" ++ "tk") = none ∧
    verify_user_by_token
      { users := [⟨5, "verro", "v@example.com", "pw5", "V", false, true, false⟩],
        cache := redis_delete_uid [("verification_token:tk", 5)]
          ("verification_token:" ++ "tk") } "tk"
      = .error "Invalid or expired verification token" ∧
    verify_state_after
      (verify_state_after
        { users := [⟨5, "verro", "v@example.com", "pw5", "V", false, true, false⟩],
          cache := [("verification_token:tk", 5)] } "tk") "tk"
      = verify_state_after
          { users := [⟨5, "verro", "v@example.com", "pw5", "V", false, true, false⟩],
            cache := [("verification_token:tk", 5)] } "tk" :=
  verify_token_twice_idempotent
    { users := [⟨5, "verro", "v@example.com", "pw5", "V", false, true, false⟩],
      cache := [("verification_token:tk", 5)] } "tk" 5
    ⟨5, "verro", "v@example.com", "pw5", "V", false, true, false⟩
    (by decide) (by decide) (by decide)

/-- Claim C3: with a correct current password, the authenticated
password-update operation sets the new password for the target user and
deletes every ledger row of that user except the presented bearer token:
afterwards any previously issued token of the user other than the
request's own resolves as Unauthenticated (`none`), only the request's own
token remains in the ledger for that user, and that token still resolves
to the (re-hashed) target user. -/
theorem password_update_revokes_other_tokens (st : AppState) (target : UserRec)
    (cur new conf tok : String)
    (hcur : check_password target cur = true)
    (hnew : validate_password new = true)
    (hconf : new = conf)
    (huser : st.users.find? (fun u => u.id == target.id) = some target)
    (htok : (⟨tok, target.id⟩ : ActiveAccessToken) ∈ st.tokens)
    (huniq : st.tokens.Pairwise (fun a b => a.access_token ≠ b.access_token)) :
    ∃ st2, password_update_post st target cur new conf (some tok) = .ok st2 ∧
      (st2.users.find? (fun u => u.id == target.id)).map (fun u => u.password)
        = some (bcrypt_hash new) ∧
      (∀ t ∈ st.tokens, t.user_id = target.id → t.access_token ≠ tok →
        resolve st2 t.access_token = none) ∧
      (∀ t ∈ st2.tokens, t.user_id = target.id → t.access_token = tok) ∧
      resolve st2 tok = some (set_password target new) := by
  subst hconf
  have hfpres : ∀ u : UserRec,
      ((if u.id == target.id then set_password u new else u).id == target.id)
        = (u.id == target.id) := by
    intro u
    by_cases h : u.id == target.id <;> simp [h, set_password]
  have husers : (st.users.map
      (fun u => if u.id == target.id then set_password u new else u)).find?
      (fun u => u.id == target.id) = some (set_password target new) := by
    rw [find?_map_of_pred _ _ _ hfpres, huser]
    simp
  refine ⟨{ users := st.users.map
              (fun u => if u.id == target.id then set_password u new else u),
            tokens := st.tokens.filter
              (fun t => !(t.user_id == target.id && t.access_token != tok)) },
          ?_, ?_, ?_, ?_, ?_⟩
  · simp [password_update_post, hcur, hnew]
  · show ((st.users.map
      (fun u => if u.id == target.id then set_password u new else u)).find?
      (fun u => u.id == target.id)).map (fun u => u.password)
        = some (bcrypt_hash new)
    rw [husers]
    simp [set_password]
  · intro t ht hut hat
    have hnone : (st.tokens.filter
        (fun x => !(x.user_id == target.id && x.access_token != tok))).find?
        (fun x => x.access_token == t.access_token) = none := by
      rw [List.find?_eq_none]
      intro r hr hpr
      have hr1 := (List.mem_filter.mp hr).1
      have hr2 := (List.mem_filter.mp hr).2
      have hacc : r.access_token = t.access_token := by simpa using hpr
      by_cases hrt : r = t
      · subst hrt
        have hid : (r.user_id == target.id) = true := by simp [hut]
        have hbne : (r.access_token != tok) = true := by
          simp only [bne_iff_ne, ne_eq]
          exact hat
        rw [hid, hbne] at hr2
        simp at hr2
      · exact List.Pairwise.forall (fun a b h => h.symm) huniq hr1 ht hrt hacc
    simp only [resolve]
    rw [hnone]
  · intro t ht hut
    have h2 := (List.mem_filter.mp ht).2
    by_contra hne
    have hid : (t.user_id == target.id) = true := by simp [hut]
    have hbne : (t.access_token != tok) = true := by
      simp only [bne_iff_ne, ne_eq]
      exact hne
    rw [hid, hbne] at h2
    simp at h2
  · have hmem2 : (⟨tok, target.id⟩ : ActiveAccessToken) ∈ st.tokens.filter
        (fun x => !(x.user_id == target.id && x.access_token != tok)) := by
      rw [List.mem_filter]
      exact ⟨htok, by simp⟩
    rcases hfind : (st.tokens.filter
        (fun x => !(x.user_id == target.id && x.access_token != tok))).find?
        (fun x => x.access_token == tok) with _ | r
    · have := List.find?_eq_none.mp hfind _ hmem2
      simp at this
    · have hpr := List.find?_some hfind
      have hrmem : r ∈ st.tokens := (List.mem_filter.mp (List.mem_of_find?_eq_some hfind)).1
      have hacc : r.access_token = tok := by simpa using hpr
      have hreq : r = ⟨tok, target.id⟩ := by
        by_contra hner
        exact (List.Pairwise.forall (fun a b h => h.symm) huniq hrmem htok hner) hacc
      subst hreq
      simp only [resolve]
      rw [hfind]
      exact husers

/-- Witness for C3: Alice (id 2, password "pw1") updates her password using
token "tokA"; her other token "tokB" stops resolving, only "tokA" remains in
her ledger rows, and "tokA" still resolves to her updated record. -/
theorem password_update_revokes_other_tokens_witness :
    ∃ st2, password_update_post
        { users := [demoStaff, demoAlice],
          tokens := [⟨"tokA", 2⟩, ⟨"tokB", 2⟩, ⟨"tokC", 1⟩] } demoAlice
        "pw1" "Newpass1!" "Newpass1!" (some "tokA") = .ok st2 ∧
      (st2.users.find? (fun u => u.id == demoAlice.id)).map (fun u => u.password)
        = some (bcrypt_hash "Newpass1!") ∧
      (∀ t ∈ ([⟨"tokA", 2⟩, ⟨"tokB", 2⟩, ⟨"tokC", 1⟩] : List ActiveAccessToken),
        t.user_id = demoAlice.id → t.access_token ≠ "tokA" →
        resolve st2 t.access_token = none) ∧
      (∀ t ∈ st2.tokens, t.user_id = demoAlice.id → t.access_token = "tokA") ∧
      resolve st2 "tokA" = some (set_password demoAlice "Newpass1!") :=
  password_update_revokes_other_tokens
    { users := [demoStaff, demoAlice],
      tokens := [⟨"tokA", 2⟩, ⟨"tokB", 2⟩, ⟨"tokC", 1⟩] } demoAlice
    "pw1" "Newpass1!" "Newpass1!" "tokA"
    (by decide) (by decide) rfl (by decide) (by decide) (by decide)
